import Mathlib

set_option linter.unusedVariables false

/-!
Verification development for the opcda-to-mqtt bridge core.

The definitions below are a shallow embedding of the repository's code:

* `OpcdaToMqtt.runLoop` / `OpcdaToMqtt.run` embed the worker loop of
  `OpenOpcWorker._run` (src/opcda_to_mqtt/sync/openopc_worker.py, lines 74-100).
* `OpcdaToMqtt.stop` embeds `OpenOpcWorker.stop` (lines 60-64).
* `OpcdaToMqtt.PahoBroker.connect`, `.publish` and `.disconnect` embed the
  corresponding methods of `PahoBroker` (src/opcda_to_mqtt/mqtt/paho.py).
* `OpcdaToMqtt.Either` and its `fold` model the result type of
  `opcda_to_mqtt/result/either.py`, whose source file is not part of the
  visible tree; it is modelled from the specification.

External collaborators (the paho MQTT client library, the OpenOPC client,
and the Task objects put on the queue) are modelled by explicit behaviour
values chosen by the environment, so that every exceptional path the
Python `try`/`except`/`finally` blocks can take is represented.
-/

namespace OpcdaToMqtt

/-- Modelled from the spec: the structured failure value ("Problem carries a
human-readable message and a mapping from context-key to context-value");
the source file `result/either.py` is not in the visible tree, but its
construction sites in `paho.py` show the message plus context-dictionary
shape used here. -/
structure Problem where
  message : String
  context : List (String × String)
  deriving Repr, DecidableEq

/-- Modelled from the spec: the two-variant result type of
`result/either.py` ("tagged union over \x7bProblem, Value\x7d"); the
constructors keep the source's `Left`/`Right` names in lower case. -/
inductive Either (α β : Type) : Type
  | left (a : α)
  | right (b : β)
  deriving Repr, DecidableEq

/-- Modelled from the spec: `fold(onFailure, onSuccess)` of the result type
"applies exactly one branch, returning a common result type"; argument
order as used in tests/test_console_broker.py
(`result.fold(lambda e: "error", lambda c: c)`). -/
def Either.fold (e : Either α β) (onFailure : α → γ) (onSuccess : β → γ) : γ :=
  match e with
  | .left a => onFailure a
  | .right b => onSuccess b

/-- Zero-field success marker for connect (mqtt/broker.py collaborator). -/
inductive Connected : Type
  | mk
  deriving Repr, DecidableEq

/-- Zero-field success marker for publish. -/
inductive Published : Type
  | mk
  deriving Repr, DecidableEq

/-- Zero-field success marker for disconnect. -/
inductive Disconnected : Type
  | mk
  deriving Repr, DecidableEq

/-! ## Worker model (src/opcda_to_mqtt/sync/openopc_worker.py) -/

/-- The raw effect a task's underlying read/publish work performs when run:
it either produces a value or raises an error. -/
inductive RawAction : Type
  | ok (value : String)
  | raiseErr (msg : String)
  deriving Repr, DecidableEq

/-- Behaviour of `task.execute(client)` as seen by the worker loop at
openopc_worker.py line 95: either the task converts its raw outcome into a
Result at the task-execution boundary and returns normally (`captured`), or
it lets an unexpected failure propagate out of `execute` (`uncaught`). -/
inductive TaskBehavior : Type
  | captured (a : RawAction)
  | uncaught (msg : String)
  deriving Repr, DecidableEq

/-- A task put on the queue, characterised by what its `execute` does. -/
structure WorkTask where
  behavior : TaskBehavior
  deriving Repr, DecidableEq

/-- A queue item as dequeued at openopc_worker.py line 90: `None` (the
end-of-work sentinel, line 91) or a task. -/
inductive QItem : Type
  | sentinel
  | work (t : WorkTask)
  deriving Repr, DecidableEq

/-- `true` on the end-of-work sentinel. -/
def QItem.isSentinel : QItem → Bool
  | .sentinel => true
  | .work _ => false

/-- Modelled from the spec: the "execute-and-capture" boundary of §9 that
"wraps any collaborator call and converts failure into a Problem value";
the Task source is not in the visible tree. -/
def execAndCapture : RawAction → Either Problem String
  | .ok v => .right v
  | .raiseErr m => .left ⟨"task failed", [("error", m)]⟩

/-- How the worker's `while True` loop terminated:
`sentinelExit` via the `break` at line 93, `uncaughtExit` via an exception
propagating out of `task.execute` at line 95, `blocked` when the dequeued
item sequence ran out while the loop was still waiting on `queue.get()`. -/
inductive ExitKind : Type
  | sentinelExit
  | uncaughtExit
  | blocked
  deriving Repr, DecidableEq

/-- Observable outcome of the worker loop on a sequence of dequeued items. -/
structure LoopOutcome where
  executed : List WorkTask
  results : List (Either Problem String)
  exit : ExitKind
  consumed : List QItem
  remaining : List QItem
  deriving Repr, DecidableEq

/-- The worker loop of `OpenOpcWorker._run` (lines 88-96), as a function of
the sequence of items this worker dequeues (`queue.get()` at line 90):
stop on `None` (lines 91-93), otherwise call `task.execute(client)`
(line 95) and continue; an exception escaping `execute` terminates the
loop. `executed` lists the tasks on which `execute` was invoked, in order;
`results` the Result each captured execution returned; `consumed` the
dequeued items; `remaining` the items never dequeued. -/
def runLoop : List QItem → LoopOutcome
  | [] => ⟨[], [], .blocked, [], []⟩
  | .sentinel :: rest => ⟨[], [], .sentinelExit, [.sentinel], rest⟩
  | .work t :: rest =>
    match t.behavior with
    | .uncaught _ => ⟨[t], [], .uncaughtExit, [.work t], rest⟩
    | .captured a =>
      let o := runLoop rest
      ⟨t :: o.executed, execAndCapture a :: o.results, o.exit,
        .work t :: o.consumed, o.remaining⟩

/-- The `finally` block at lines 97-99 runs `client.close()` whenever the
`try` body is left, i.e. whenever the loop terminated by sentinel or by an
uncaught exception; a worker still blocked on `queue.get()` has not left
the `try` body. -/
def closeCalledOf : ExitKind → Bool
  | .sentinelExit => true
  | .uncaughtExit => true
  | .blocked => false

/-- Outcome of a whole `_run` invocation (lines 74-100). -/
structure RunOutcome where
  acquired : Bool
  loop : LoopOutcome
  closeCalled : Bool
  deriving Repr, DecidableEq

/-- `OpenOpcWorker._run` (lines 74-100): connection acquisition
(lines 81-85: import, `OpenOPC.client()`, `client.connect(...)`) happens
before the `try`; if it raises, the thread dies with no loop iteration and
no `close()`. Otherwise the loop runs inside `try`/`finally` and
`client.close()` runs on any exit from the loop. -/
def run (acquireOk : Bool) (items : List QItem) : RunOutcome :=
  if acquireOk then
    let o := runLoop items
    ⟨true, o, closeCalledOf o.exit⟩
  else
    ⟨false, ⟨[], [], .blocked, [], []⟩, false⟩

/-- `true` when every task among the items converts failures at the
task-execution boundary (never lets an exception escape `execute`). -/
def allCaptured : List QItem → Bool
  | [] => true
  | .sentinel :: rest => allCaptured rest
  | .work t :: rest =>
    match t.behavior with
    | .captured _ => allCaptured rest
    | .uncaught _ => false

/-- The tasks carried by a list of queue items, in order. -/
def tasksOf (l : List QItem) : List WorkTask :=
  l.filterMap (fun i => match i with | .sentinel => none | .work t => some t)

/-- Number of end-of-work sentinels in a list of queue items. -/
def countSentinels (l : List QItem) : Nat :=
  (l.filter QItem.isSentinel).length

/-! ## Worker object state (for `OpenOpcWorker.stop`) -/

/-- The fields of an `OpenOpcWorker` object set in `__init__`
(openopc_worker.py lines 45-50) together with whether its thread was
started: the task queue contents, the ProgID/host configuration, the
worker id, and the thread flag. -/
structure WorkerState where
  queue : List QItem
  progid : String
  host : String
  id : Nat
  threadStarted : Bool
  deriving Repr, DecidableEq

/-- `OpenOpcWorker.stop` (lines 60-64): its body is a single
`_log.debug` call; it returns the unchanged worker state together with the
log line it emits. -/
def stop (s : WorkerState) : WorkerState × List String :=
  (s, ["Worker[" ++ toString s.id ++ "]: stop called"])

/-! ## PahoBroker model (src/opcda_to_mqtt/mqtt/paho.py) -/

/-- Behaviour of `self._client.publish(topic, message)` at paho.py
line 105: paho either raises, or returns a message-info object carrying a
return code `rc` and message id `mid` (logged at line 106 and otherwise
unused by the source). -/
inductive PublishBehavior : Type
  | raises (err : String)
  | returnsInfo (rc : Int) (mid : Int)
  deriving Repr, DecidableEq

/-- Model of a constructed `paho.mqtt.client.Client` instance as the broker
code observes it: what its `publish` does, and whether its
`loop_stop()`/`disconnect()` pair (paho.py lines 125-126) raises. -/
structure PahoClient where
  publishBehavior : PublishBehavior
  disconnectRaises : Option String
  deriving Repr, DecidableEq

/-- The fields of a `PahoBroker` object (paho.py lines 43-45): host, port,
and the internal client handle `_client` (`None` until `connect` sets it). -/
structure PahoBroker where
  host : String
  port : Nat
  client : Option PahoClient
  deriving Repr, DecidableEq

/-- Outcome of `PahoBroker.connect`. -/
structure ConnectOutcome where
  state : PahoBroker
  result : Either Problem Connected
  deriving Repr, DecidableEq

/-- `PahoBroker.connect` (paho.py lines 47-69): inside `try`, the client is
constructed and assigned to `self._client` (line 57) and its callbacks set
(lines 58-59) before the network connection attempt
`self._client.connect(host, port)` (line 60) and `loop_start()` (line 61).
`newClient` is the client instance line 57 constructs; `networkFailure`
models whether the connection attempt at lines 60-61 raises. The `except`
at lines 64-69 returns a Problem but never clears `self._client`. -/
def PahoBroker.connect (b : PahoBroker) (newClient : PahoClient)
    (networkFailure : Option String) : ConnectOutcome :=
  let b1 : PahoBroker := { b with client := some newClient }
  match networkFailure with
  | none => ⟨b1, .right Connected.mk⟩
  | some e =>
    ⟨b1, .left ⟨"MQTT connection failed",
      [("host", b.host), ("port", toString b.port), ("error", e)]⟩⟩

/-- Outcome of `PahoBroker.publish`: the broker state after the call, the
returned Result, whether the `self._client is None` guard branch
(lines 101-103) was taken, and how many times the underlying
`client.publish` was invoked. -/
structure PublishOutcome where
  state : PahoBroker
  result : Either Problem Published
  notConnectedGuard : Bool
  underlyingCalls : Nat
  deriving Repr, DecidableEq

/-- `PahoBroker.publish` (paho.py lines 89-113): if `self._client is None`
it returns `Left(Problem("Not connected", \x7b\x7d))` (lines 101-103);
otherwise it calls `self._client.publish(topic, message)` exactly once
(line 105) — if that raises, the `except` at lines 108-113 returns a
Problem with topic and error context; if it returns, line 107 returns
`Right(Published())` regardless of the returned `rc`. -/
def PahoBroker.publish (b : PahoBroker) (topic : String) (message : String) :
    PublishOutcome :=
  match b.client with
  | none => ⟨b, .left ⟨"Not connected", []⟩, true, 0⟩
  | some c =>
    match c.publishBehavior with
    | .raises e =>
      ⟨b, .left ⟨"MQTT publish failed", [("topic", topic), ("error", e)]⟩,
        false, 1⟩
    | .returnsInfo _ _ => ⟨b, .right Published.mk, false, 1⟩

/-- Outcome of `PahoBroker.disconnect`. -/
structure DisconnectOutcome where
  state : PahoBroker
  result : Either Problem Disconnected
  deriving Repr, DecidableEq

/-- `PahoBroker.disconnect` (paho.py lines 115-134): if `self._client` is
not `None`, it runs `loop_stop()`, `disconnect()` (lines 125-126) and only
then clears the handle (`self._client = None`, line 127); when
`loop_stop`/`disconnect` raises, the `except` at lines 129-134 returns a
Problem and line 127 never runs, so the handle keeps its value. With the
handle already `None`, the body is skipped and line 128 returns
`Right(Disconnected())`. -/
def PahoBroker.disconnect (b : PahoBroker) : DisconnectOutcome :=
  match b.client with
  | none => ⟨b, .right Disconnected.mk⟩
  | some c =>
    match c.disconnectRaises with
    | none => ⟨{ b with client := none }, .right Disconnected.mk⟩
    | some e => ⟨b, .left ⟨"MQTT disconnect failed", [("error", e)]⟩⟩

/-! ## Theorems -/

/-- C1: a worker on a dequeued item sequence whose tasks all convert
failures at the task-execution boundary executes each non-sentinel task in
order, exits its loop only on the first end-of-work sentinel (consuming
exactly that one sentinel and touching no item after it), and never
terminates its loop without receiving one. -/
theorem worker_loop_order_and_single_sentinel (items : List QItem)
    (h : allCaptured items = true) :
    (runLoop items).executed
      = tasksOf (items.takeWhile (fun i => !i.isSentinel))
    ∧ ((runLoop items).exit ≠ ExitKind.blocked →
        (runLoop items).exit = ExitKind.sentinelExit)
    ∧ (QItem.sentinel ∈ items →
        (runLoop items).exit = ExitKind.sentinelExit)
    ∧ ((runLoop items).exit = ExitKind.sentinelExit →
        (runLoop items).consumed
          = items.takeWhile (fun i => !i.isSentinel) ++ [QItem.sentinel]
        ∧ countSentinels (runLoop items).consumed = 1
        ∧ (runLoop items).remaining
          = (items.dropWhile (fun i => !i.isSentinel)).tail)
    ∧ ((runLoop items).exit = ExitKind.blocked →
        countSentinels (runLoop items).consumed = 0) := by
  induction items with
  | nil => simp [runLoop, tasksOf, countSentinels]
  | cons i rest ih =>
    cases i with
    | sentinel =>
      simp [runLoop, tasksOf, countSentinels, QItem.isSentinel,
        List.takeWhile, List.dropWhile, List.filter]
    | work t =>
      cases hb : t.behavior with
      | uncaught m =>
        exfalso
        simp [allCaptured, hb] at h
      | captured a =>
        have hrest : allCaptured rest = true := by
          simpa [allCaptured, hb] using h
        obtain ⟨ih1, ih2, ih3, ih4, ih5⟩ := ih hrest
        refine ⟨?_, ?_, ?_, ?_, ?_⟩
        · simp [runLoop, hb, tasksOf, QItem.isSentinel, List.takeWhile]
          simpa [tasksOf] using ih1
        · intro hne
          have : (runLoop rest).exit ≠ ExitKind.blocked := by
            simpa [runLoop, hb] using hne
          simpa [runLoop, hb] using ih2 this
        · intro hmem
          have hmem2 : QItem.sentinel ∈ rest := by
            simpa using hmem
          simpa [runLoop, hb] using ih3 hmem2
        · intro hex
          have hex2 : (runLoop rest).exit = ExitKind.sentinelExit := by
            simpa [runLoop, hb] using hex
          obtain ⟨c1, c2, c3⟩ := ih4 hex2
          refine ⟨?_, ?_, ?_⟩
          · simp [runLoop, hb, QItem.isSentinel, List.takeWhile, c1]
          · simp [runLoop, hb, countSentinels, List.filter, QItem.isSentinel]
            simpa [countSentinels] using c2
          · simp [runLoop, hb, QItem.isSentinel, List.dropWhile, c3]
        · intro hex
          have hex2 : (runLoop rest).exit = ExitKind.blocked := by
            simpa [runLoop, hb] using hex
          simp [runLoop, hb, countSentinels, List.filter, QItem.isSentinel]
          simpa [countSentinels] using ih5 hex2

/-- Witness for C1 at the concrete dequeue sequence
[task "v", sentinel, task "w"]. -/
theorem worker_loop_order_and_single_sentinel_witness :
    allCaptured [QItem.work ⟨TaskBehavior.captured (RawAction.ok "v")⟩,
      QItem.sentinel, QItem.work ⟨TaskBehavior.captured (RawAction.ok "w")⟩]
      = true
    ∧ (runLoop [QItem.work ⟨TaskBehavior.captured (RawAction.ok "v")⟩,
        QItem.sentinel, QItem.work ⟨TaskBehavior.captured (RawAction.ok "w")⟩]).exit
      = ExitKind.sentinelExit :=
  ⟨by decide,
    (worker_loop_order_and_single_sentinel
      [QItem.work ⟨TaskBehavior.captured (RawAction.ok "v")⟩, QItem.sentinel,
        QItem.work ⟨TaskBehavior.captured (RawAction.ok "w")⟩]
      (by decide)).2.2.1 (by decide)⟩

/-- C2: a task whose raw execution raises, but whose `execute` converts the
failure to a Result at the task-execution boundary, does not kill the
worker: the worker invokes it, obtains the failure as a `Either.left`
Result, and the loop continues with the next queue item exactly as it
would have without the failing task in front. -/
theorem worker_survives_task_failure (t : WorkTask) (m : String)
    (rest : List QItem)
    (h : t.behavior = TaskBehavior.captured (RawAction.raiseErr m)) :
    (runLoop (QItem.work t :: rest)).executed = t :: (runLoop rest).executed
    ∧ (runLoop (QItem.work t :: rest)).results
        = Either.left ⟨"task failed", [("error", m)]⟩ :: (runLoop rest).results
    ∧ (runLoop (QItem.work t :: rest)).exit = (runLoop rest).exit
    ∧ (runLoop (QItem.work t :: rest)).consumed
        = QItem.work t :: (runLoop rest).consumed := by
  simp [runLoop, h, execAndCapture]

/-- Witness for C2: a failing-but-captured task followed by the sentinel. -/
theorem worker_survives_task_failure_witness :
    (⟨TaskBehavior.captured (RawAction.raiseErr "boom")⟩ : WorkTask).behavior
      = TaskBehavior.captured (RawAction.raiseErr "boom")
    ∧ (runLoop
        [QItem.work ⟨TaskBehavior.captured (RawAction.raiseErr "boom")⟩,
          QItem.sentinel]).exit
      = (runLoop [QItem.sentinel]).exit :=
  ⟨rfl,
    (worker_survives_task_failure
      ⟨TaskBehavior.captured (RawAction.raiseErr "boom")⟩ "boom"
      [QItem.sentinel] rfl).2.2.1⟩

/-- C3: whenever the worker's loop exits — by end-of-work sentinel or by an
uncaught failure during task execution — the `finally` block releases the
connection (`client.close()` runs), given the initial connection was
acquired successfully. -/
theorem worker_releases_connection_on_exit (items : List QItem)
    (h : (run true items).loop.exit = ExitKind.sentinelExit ∨
         (run true items).loop.exit = ExitKind.uncaughtExit) :
    (run true items).closeCalled = true := by
  simp [run] at h ⊢
  rcases h with h | h <;> simp [h, closeCalledOf]

/-- Witness for C3: both exit paths at concrete inputs — a sentinel exit
and an uncaught-exception exit both call `close()`. -/
theorem worker_releases_connection_on_exit_witness :
    ((run true [QItem.sentinel]).loop.exit = ExitKind.sentinelExit ∨
      (run true [QItem.sentinel]).loop.exit = ExitKind.uncaughtExit)
    ∧ (run true [QItem.sentinel]).closeCalled = true
    ∧ (run true [QItem.work ⟨TaskBehavior.uncaught "boom"⟩]).closeCalled
      = true :=
  ⟨Or.inl (by decide),
    worker_releases_connection_on_exit [QItem.sentinel] (Or.inl (by decide)),
    worker_releases_connection_on_exit
      [QItem.work ⟨TaskBehavior.uncaught "boom"⟩] (Or.inr (by decide))⟩

/-- C9: `OpenOpcWorker.stop` performs no queue action and changes no worker
state — the queue contents, the thread flag, and every other field are
left exactly as they were. -/
theorem stop_changes_nothing (s : WorkerState) :
    (stop s).1 = s ∧ (stop s).1.queue = s.queue
    ∧ (stop s).1.threadStarted = s.threadStarted := by
  simp [stop]

/-- Counterexample for C4: after a `connect` that returned a Problem (so no
successful connect has ever happened), `publish` with an underlying client
whose publish call returns (rc = 4, paho's "no connection" code) yields
`Right(Published())` — a Published success before any successful connect. -/
theorem publish_after_failed_connect_returns_published :
    (∃ p, ((PahoBroker.mk "h" 1883 none).connect
        (PahoClient.mk (PublishBehavior.returnsInfo 4 1) none)
        (some "connection refused")).result = Either.left p)
    ∧ (((PahoBroker.mk "h" 1883 none).connect
        (PahoClient.mk (PublishBehavior.returnsInfo 4 1) none)
        (some "connection refused")).state.publish "t" "m").result
      = Either.right Published.mk :=
  ⟨⟨⟨"MQTT connection failed",
      [("host", "h"), ("port", "1883"), ("error", "connection refused")]⟩,
    rfl⟩, rfl⟩

/-- C4 (amended): `publish` on a broker whose client handle is still `None`
— i.e. before any `connect` call — returns a failure Result carrying the
Problem "Not connected" via the guard branch, never a Published success and
never a thrown exception. -/
theorem publish_with_no_client_not_connected (b : PahoBroker)
    (topic message : String) (h : b.client = none) :
    (b.publish topic message).result = Either.left ⟨"Not connected", []⟩
    ∧ (b.publish topic message).notConnectedGuard = true
    ∧ ∀ v, (b.publish topic message).result ≠ Either.right v := by
  simp [PahoBroker.publish, h]

/-- Witness for C4 (amended) on a freshly constructed broker. -/
theorem publish_with_no_client_not_connected_witness :
    (PahoBroker.mk "h" 1883 none).client = none
    ∧ ((PahoBroker.mk "h" 1883 none).publish "t" "m").result
      = Either.left ⟨"Not connected", []⟩ :=
  ⟨rfl, (publish_with_no_client_not_connected
    (PahoBroker.mk "h" 1883 none) "t" "m" rfl).1⟩

/-- Counterexample for C5: an underlying publish that the broker rejects
via its return code (rc = 4, paho's "no connection" code) without raising
makes `PahoBroker.publish` return `Right(Published())` — a Published
success for a failed publish, because line 107 ignores `result.rc`. -/
theorem publish_rejected_rc_returns_published :
    ((PahoBroker.mk "h" 1883
        (some (PahoClient.mk (PublishBehavior.returnsInfo 4 1) none))).publish
        "t" "m").result = Either.right Published.mk :=
  rfl

/-- C5 (amended): when the underlying publish call raises, `publish`
reports the failure to the caller as a Problem with topic and error
context, never a Published success; the underlying publish is invoked
exactly once (no retry inside the broker) and the broker state is left
unchanged (the reading is dropped for that cycle). -/
theorem publish_raise_reported_as_problem (b : PahoBroker) (c : PahoClient)
    (topic message e : String) (hc : b.client = some c)
    (hb : c.publishBehavior = PublishBehavior.raises e) :
    (b.publish topic message).result
      = Either.left ⟨"MQTT publish failed", [("topic", topic), ("error", e)]⟩
    ∧ (b.publish topic message).underlyingCalls = 1
    ∧ (b.publish topic message).state = b := by
  simp [PahoBroker.publish, hc, hb]

/-- Witness for C5 (amended) with a raising underlying client. -/
theorem publish_raise_reported_as_problem_witness :
    (PahoBroker.mk "h" 1883
        (some (PahoClient.mk (PublishBehavior.raises "io error") none))).client
      = some (PahoClient.mk (PublishBehavior.raises "io error") none)
    ∧ (PahoClient.mk (PublishBehavior.raises "io error") none).publishBehavior
      = PublishBehavior.raises "io error"
    ∧ ((PahoBroker.mk "h" 1883
        (some (PahoClient.mk (PublishBehavior.raises "io error") none))).publish
        "t" "m").underlyingCalls = 1 :=
  ⟨rfl, rfl,
    (publish_raise_reported_as_problem
      (PahoBroker.mk "h" 1883
        (some (PahoClient.mk (PublishBehavior.raises "io error") none)))
      (PahoClient.mk (PublishBehavior.raises "io error") none)
      "t" "m" "io error" rfl rfl).2.1⟩

/-- Counterexample for C6: on a broker holding a client whose underlying
`loop_stop`/`disconnect` raises, `disconnect` returns a Problem, not
`Disconnected` — and so does the immediately following second call, since
the handle was not cleared; calling it twice in a row does not return
`Disconnected` both times. -/
theorem disconnect_underlying_failure_not_disconnected :
    ((PahoBroker.mk "h" 1883
        (some (PahoClient.mk (PublishBehavior.returnsInfo 0 1)
          (some "boom")))).disconnect).result
      ≠ Either.right Disconnected.mk
    ∧ (((PahoBroker.mk "h" 1883
        (some (PahoClient.mk (PublishBehavior.returnsInfo 0 1)
          (some "boom")))).disconnect).state.disconnect).result
      ≠ Either.right Disconnected.mk := by
  refine ⟨?_, ?_⟩ <;> decide

/-- C6 (amended): `disconnect` never raises, and whenever the underlying
client's disconnect does not raise — in particular always when the broker
is already disconnected (client handle `None`) — it returns `Disconnected`;
a second call in a row then also returns `Disconnected` and leaves the
state fixed, so `disconnect` is idempotent in the failure-free case. -/
theorem disconnect_idempotent_when_underlying_ok (b : PahoBroker)
    (h : ∀ c, b.client = some c → c.disconnectRaises = none) :
    (b.disconnect).result = Either.right Disconnected.mk
    ∧ ((b.disconnect).state.disconnect).result = Either.right Disconnected.mk
    ∧ ((b.disconnect).state.disconnect).state = (b.disconnect).state := by
  cases hb : b.client with
  | none => simp [PahoBroker.disconnect, hb]
  | some c =>
    have hd : c.disconnectRaises = none := h c hb
    simp [PahoBroker.disconnect, hb, hd]

/-- Witness for C6 (amended): a connected broker whose client disconnects
cleanly yields `Disconnected` on both of two successive calls. -/
theorem disconnect_idempotent_when_underlying_ok_witness :
    (∀ c, (PahoBroker.mk "h" 1883
        (some (PahoClient.mk (PublishBehavior.returnsInfo 0 1) none))).client
        = some c → c.disconnectRaises = none)
    ∧ ((PahoBroker.mk "h" 1883
        (some (PahoClient.mk (PublishBehavior.returnsInfo 0 1)
          none))).disconnect).result = Either.right Disconnected.mk
    ∧ (((PahoBroker.mk "h" 1883
        (some (PahoClient.mk (PublishBehavior.returnsInfo 0 1)
          none))).disconnect).state.disconnect).result
      = Either.right Disconnected.mk :=
  ⟨fun c hc => by injection hc with h2; exact h2 ▸ rfl,
    (disconnect_idempotent_when_underlying_ok
      (PahoBroker.mk "h" 1883
        (some (PahoClient.mk (PublishBehavior.returnsInfo 0 1) none)))
      (fun c hc => by injection hc with h2; exact h2 ▸ rfl)).1,
    (disconnect_idempotent_when_underlying_ok
      (PahoBroker.mk "h" 1883
        (some (PahoClient.mk (PublishBehavior.returnsInfo 0 1) none)))
      (fun c hc => by injection hc with h2; exact h2 ▸ rfl)).2.1⟩

/-- C7 failing input, evaluated: when the underlying disconnect raises,
`PahoBroker.disconnect` returns a Problem and leaves the local connection
handle set (`self._client = None` on line 127 is skipped by the exception),
contradicting the spec's "always still release local resources even if the
underlying disconnect call reports a Problem". -/
theorem disconnect_failure_leaves_handle_set :
    (∃ p, ((PahoBroker.mk "h" 1883
        (some (PahoClient.mk (PublishBehavior.returnsInfo 0 1)
          (some "boom")))).disconnect).result = Either.left p)
    ∧ ((PahoBroker.mk "h" 1883
        (some (PahoClient.mk (PublishBehavior.returnsInfo 0 1)
          (some "boom")))).disconnect).state.client
      = some (PahoClient.mk (PublishBehavior.returnsInfo 0 1) (some "boom")) :=
  ⟨⟨⟨"MQTT disconnect failed", [("error", "boom")]⟩, rfl⟩, rfl⟩

/-- C8: `fold` invokes exactly one of its two branch functions — never
both, never zero (the invocation tally sums to one) — applying the failure
branch to the payload of a `left` and the success branch to the payload of
a `right`, and returning that function's result. -/
theorem fold_exactly_one_branch {α β γ : Type} (e : Either α β)
    (f : α → γ) (g : β → γ) :
    ((e.fold (fun a => ((1 : Nat), (0 : Nat), f a))
        (fun b => ((0 : Nat), (1 : Nat), g b))).1
      + (e.fold (fun a => ((1 : Nat), (0 : Nat), f a))
        (fun b => ((0 : Nat), (1 : Nat), g b))).2.1 = 1)
    ∧ ((∃ a, e = Either.left a ∧ e.fold f g = f a)
       ∨ (∃ b, e = Either.right b ∧ e.fold f g = g b)) := by
  cases e with
  | left a => exact ⟨rfl, Or.inl ⟨a, rfl, rfl⟩⟩
  | right b => exact ⟨rfl, Or.inr ⟨b, rfl, rfl⟩⟩

/-- C10: `connect` assigns the client handle before the network attempt and
the exception path does not clear it: after a failed `connect` the handle
is the constructed client, and a subsequent `publish` no longer takes the
"Not connected" guard branch nor returns its Problem. -/
theorem connect_failure_sets_handle_publish_skips_guard (b : PahoBroker)
    (newClient : PahoClient) (e topic message : String) :
    (∃ p, (b.connect newClient (some e)).result = Either.left p)
    ∧ (b.connect newClient (some e)).state.client = some newClient
    ∧ ((b.connect newClient (some e)).state.publish topic
        message).notConnectedGuard = false
    ∧ ((b.connect newClient (some e)).state.publish topic message).result
      ≠ Either.left ⟨"Not connected", []⟩ := by
  refine ⟨⟨⟨"MQTT connection failed",
    [("host", b.host), ("port", toString b.port), ("error", e)]⟩, rfl⟩,
    rfl, ?_, ?_⟩
  · cases hp : newClient.publishBehavior <;>
      simp [PahoBroker.connect, PahoBroker.publish, hp]
  · cases hp : newClient.publishBehavior <;>
      simp [PahoBroker.connect, PahoBroker.publish, hp]

end OpcdaToMqtt
